import Mathlib

/-!
Verification development for the FOUND integration-test runner
(`src/integration_runner.hpp` / `src/integration_runner.cpp`).

The runner is glue code: it checks that an image file exists, decodes it with
`stbi_load`, runs the external FOUND edge-detection and distance-determination
algorithms, computes the distance magnitude and the error against a ground
truth, and reports the outcome either as text or as a hand-written JSON file.

Modelling conventions:
* C++ `double` is modelled as `ℚ` (exact field arithmetic, no rounding).
* The external world (the C library calls `fopen`/`stbi_load`, the FOUND
  algorithms `SimpleEdgeDetectionAlgorithm::Run` and
  `IterativeSphericalDistanceDeterminationAlgorithm::Run`, the C math
  library `std::sqrt`, the `std::ofstream` constructor, and the standard
  library's numeric `operator<<` formatting) is a parameter `Env`:
  the runner's own control flow and arithmetic are translated literally,
  while each external call is a field of `Env`.
* A C++ exception thrown by an external algorithm is modelled as
  `Except.error msg` where `msg` is the stringified `e.what()`.
* Functions that take `RunResult` by reference are modelled in state-passing
  style: they return the record they were given alongside their output, so
  that "the callee does not mutate the record" is a provable equation.
-/

namespace Integration

/-- `integration::CameraConfig` (integration_runner.hpp): focal length and
pixel size, both in meters. -/
structure CameraConfig where
  focal_length : ℚ
  pixel_size : ℚ
deriving DecidableEq

/-- `integration::RunResult` (integration_runner.hpp) with its C++ member
initializers as default field values. -/
structure RunResult where
  success : Bool := false
  error_message : String := ""
  num_edges : Int := 0
  distance_m : ℚ := 0
  altitude_m : ℚ := 0
  ground_truth_m : ℚ := 0
  error_m : ℚ := 0
  error_percent : ℚ := 0
deriving DecidableEq

/-- `found::Image`: dimensions, channel count and raw pixel bytes as filled
in by `stbi_load`. -/
structure Image where
  width : Int
  height : Int
  channels : Int
  data : List Nat
deriving DecidableEq

/-- A FOUND edge point (an element of `found::Points`). -/
structure Point where
  x : ℚ
  y : ℚ
deriving DecidableEq

/-- `found::Camera` as constructed in `run_pipeline`:
`found::Camera cam(camera.focal_length, camera.pixel_size, width, height)`. -/
structure Camera where
  focal_length : ℚ
  pixel_size : ℚ
  x_resolution : Int
  y_resolution : Int
deriving DecidableEq

/-- `found::PositionVector`: the 3D position returned by the distance
algorithm. -/
structure PositionVector where
  x : ℚ
  y : ℚ
  z : ℚ
deriving DecidableEq

/-- The external world of the runner.  Each field is one call the runner
makes outside this repository.  `Except.error m` models a thrown C++
exception whose `what()` stringifies to `m`. -/
structure Env where
  /-- `fopen(path, "rb")` succeeds (the probe in `run_pipeline`). -/
  fopen_ok : String → Bool
  /-- `stbi_load`: `none` models a null return (decode failure). -/
  stbi_load : String → Option Image
  /-- `SimpleEdgeDetectionAlgorithm(10, 1, 0).Run(image)`; may throw. -/
  edge_detect : Image → Except String (List Point)
  /-- `IterativeSphericalDistanceDeterminationAlgorithm(...).Run(edges)` for
  the camera built in `run_pipeline`; may throw. -/
  distance_run : Camera → List Point → Except String PositionVector
  /-- `std::sqrt` from the C math library. -/
  sqrt : ℚ → ℚ
  /-- the `std::ofstream f(path)` constructor succeeds (`if (!f)` test in
  `write_result_json`). -/
  ofstream_ok : String → Bool

/-- `RADIUS_OF_EARTH` constant from `run_pipeline` (6378137.0 meters). -/
def RADIUS_OF_EARTH : ℚ := 6378137

/-- The `found::Camera` built inside `run_pipeline` from the config and the
decoded image's dimensions. -/
def mkCamera (camera : CameraConfig) (image : Image) : Camera :=
  ⟨camera.focal_length, camera.pixel_size, image.width, image.height⟩

/-- `integration::run_pipeline` (integration_runner.cpp, lines 23-96),
translated branch by branch:
file-existence probe, `stbi_load`, edge detection (`try` scope), empty-edge
check, distance determination (`try` scope), magnitude/altitude/error
arithmetic, and the generic `catch` that stores `e.what()`. -/
def run_pipeline (env : Env) (image_path : String) (camera : CameraConfig)
    (ground_truth_m : ℚ) : RunResult :=
  let r : RunResult := { ground_truth_m := ground_truth_m }
  if env.fopen_ok image_path = false then
    { r with error_message := "Image file not found: " ++ image_path }
  else
    match env.stbi_load image_path with
    | none => { r with error_message := "Could not load image: " ++ image_path }
    | some image =>
      match env.edge_detect image with
      | Except.error e => { r with error_message := e }
      | Except.ok edges =>
        let r := { r with num_edges := Int.ofNat edges.length }
        if edges.length = 0 then
          { r with error_message := "No edges detected" }
        else
          match env.distance_run (mkCamera camera image) edges with
          | Except.error e => { r with error_message := e }
          | Except.ok pos =>
            let distance_m := env.sqrt (pos.x * pos.x + pos.y * pos.y + pos.z * pos.z)
            let error_m := |distance_m - ground_truth_m|
            { r with
                distance_m := distance_m,
                altitude_m := distance_m - RADIUS_OF_EARTH,
                error_m := error_m,
                error_percent := error_m / ground_truth_m * 100,
                success := true }

/-- The text `integration::print_result` sends to `std::cout`
(integration_runner.cpp, lines 102-116).  `fmtD` models the standard
library's `operator<<` formatting of a `double`; `fmtI` the formatting of an
`int`.  State-passing: the second component is the record as left by the
call. -/
def print_result (fmtD : ℚ → String) (fmtI : Int → String) (r : RunResult) :
    String × RunResult :=
  if r.success = false then
    ("[integration] FAILED: " ++ r.error_message ++ "\n", r)
  else
    ("[integration] edges:        " ++ fmtI r.num_edges ++ "\n" ++
     "[integration] distance:     " ++ fmtD (r.distance_m / 1000000) ++ " Mm  (" ++
     fmtD (r.altitude_m / 1000) ++ " km alt)\n" ++
     "[integration] ground truth: " ++ fmtD (r.ground_truth_m / 1000000) ++ " Mm\n" ++
     "[integration] error:        " ++ fmtD (r.error_m / 1000) ++ " km  (" ++
     fmtD r.error_percent ++ "%)\n", r)

/-- The JSON text `integration::write_result_json` streams into the file
(integration_runner.cpp, lines 122-136), with the same two branches on
`r.success`.  Brace characters are written with their `\x7b`/`\x7d`
escapes. -/
def json_text (fmtD : ℚ → String) (fmtI : Int → String) (r : RunResult) : String :=
  "\x7b\n  \"success\": " ++ (if r.success then "true" else "false") ++ ",\n" ++
  (if r.success = false then
    "  \"error\": \"" ++ r.error_message ++ "\"\n\x7d\n"
  else
    "  \"num_edges\": " ++ fmtI r.num_edges ++ ",\n" ++
    "  \"distance_m\": " ++ fmtD r.distance_m ++ ",\n" ++
    "  \"altitude_m\": " ++ fmtD r.altitude_m ++ ",\n" ++
    "  \"ground_truth_m\": " ++ fmtD r.ground_truth_m ++ ",\n" ++
    "  \"error_m\": " ++ fmtD r.error_m ++ ",\n" ++
    "  \"error_percent\": " ++ fmtD r.error_percent ++ "\n\x7d\n")

/-- `integration::write_result_json` (integration_runner.cpp, lines 118-137):
throws `runtime_error("Cannot write: " + path)` when the stream cannot be
opened, otherwise writes `json_text`.  State-passing as for
`print_result`. -/
def write_result_json (env : Env) (fmtD : ℚ → String) (fmtI : Int → String)
    (r : RunResult) (path : String) : Except String String × RunResult :=
  if env.ofstream_ok path = false then
    (Except.error ("Cannot write: " ++ path), r)
  else
    (Except.ok (json_text fmtD fmtI r), r)

/-! ### Concrete test environments

Small closed instantiations of `Env` used to witness the theorems below on
concrete inputs. -/

/-- A 2×2 single-channel image. -/
def img0 : Image := ⟨2, 2, 1, [0, 1, 2, 3]⟩

/-- A single edge point. -/
def pt0 : Point := ⟨1, 2⟩

/-- A position vector with squared magnitude 169. -/
def pos0 : PositionVector := ⟨3, 4, 12⟩

/-- A camera configuration. -/
def cam0 : CameraConfig := ⟨1, 1⟩

/-- An environment in which every stage succeeds; `sqrt` is instantiated
with an arbitrary total function (the identity). -/
def envOk : Env :=
  { fopen_ok := fun _ => true
    stbi_load := fun _ => some img0
    edge_detect := fun _ => Except.ok [pt0]
    distance_run := fun _ _ => Except.ok pos0
    sqrt := fun q => q
    ofstream_ok := fun _ => true }

/-- An environment in which the `fopen` probe fails. -/
def envMissing : Env := { envOk with fopen_ok := fun _ => false }

/-- An environment in which `stbi_load` returns null. -/
def envBadImage : Env := { envOk with stbi_load := fun _ => none }

/-- An environment in which edge detection finds no edge points. -/
def envNoEdges : Env := { envOk with edge_detect := fun _ => Except.ok [] }

/-- An environment in which edge detection throws. -/
def envThrow : Env := { envOk with edge_detect := fun _ => Except.error "boom" }

/-- An environment in which distance determination throws. -/
def envThrowDist : Env :=
  { envOk with distance_run := fun _ _ => Except.error "dist boom" }

/-- An environment in which edge detection throws an exception whose
`what()` is the empty string. -/
def envEmptyMsg : Env := { envOk with edge_detect := fun _ => Except.error "" }

/-! ### A JSON grammar and parser

`parseJson` makes precise what "parseable JSON" means for the text produced
by `write_result_json`: a fuel-indexed recursive-descent parser for JSON
values (objects, arrays, strings with the simple escapes, numbers, literals)
over the character list of the text.  `docFail` and `docOk` name the exact
character sequences `json_text` produces on the two branches. -/

inductive Json where
  | null : Json
  | bool (b : Bool) : Json
  | num (s : String) : Json
  | str (s : String) : Json
  | arr (elems : List Json) : Json
  | obj (members : List (String × Json)) : Json

def isWsChar (c : Char) : Bool := c == ' ' || c == '\n' || c == '\t' || c == '\r'

def skipWs (cs : List Char) : List Char := cs.dropWhile isWsChar

def numChar (c : Char) : Bool :=
  c.isDigit || c == '-' || c == '+' || c == '.' || c == 'e' || c == 'E'

def digitsTail (cs : List Char) : Option (List Char) :=
  match cs with
  | c :: rest => if c.isDigit then some (rest.dropWhile Char.isDigit) else none
  | [] => none

def intPart (cs : List Char) : Option (List Char) :=
  match cs with
  | '0' :: rest => some rest
  | c :: rest => if c.isDigit then some (rest.dropWhile Char.isDigit) else none
  | [] => none

def fracPart (cs : List Char) : Option (List Char) :=
  match cs with
  | '.' :: rest => digitsTail rest
  | _ => some cs

def expTail (cs : List Char) : Bool :=
  match digitsTail (match cs with | '+' :: r => r | '-' :: r => r | r => r) with
  | some [] => true
  | _ => false

def expPart (cs : List Char) : Bool :=
  match cs with
  | [] => true
  | c :: rest => if c == 'e' || c == 'E' then expTail rest else false

def isJsonNumber (s : String) : Bool :=
  match intPart (match s.data with | '-' :: r => r | r => r) with
  | none => false
  | some r1 =>
    match fracPart r1 with
    | none => false
    | some r2 => expPart r2

def numToken (s : String) : Bool :=
  !s.data.isEmpty && s.data.all numChar && isJsonNumber s

def cleanChar (c : Char) : Bool :=
  if c = '"' ∨ c = '\\' ∨ c.toNat < 32 then false else true

def escOk (c : Char) : Bool :=
  c == '"' || c == '\\' || c == '/' || c == 'b' || c == 'f' || c == 'n' ||
    c == 'r' || c == 't'

def escChar (c : Char) : Char :=
  if c == 'b' then '\x08'
  else if c == 'f' then '\x0c'
  else if c == 'n' then '\n'
  else if c == 'r' then '\r'
  else if c == 't' then '\t'
  else c

def lexStrAux : List Char → Bool → List Char → Option (String × List Char)
  | [], _, _ => none
  | c :: rest, esc, acc =>
    if esc then
      if escOk c then lexStrAux rest false (escChar c :: acc) else none
    else if c = '"' then some (⟨acc.reverse⟩, rest)
    else if c = '\\' then lexStrAux rest true acc
    else if c.toNat < 32 then none
    else lexStrAux rest false (c :: acc)

def lexStr (cs : List Char) : Option (String × List Char) := lexStrAux cs false []

mutual

def parseV : Nat → List Char → Option (Json × List Char)
  | 0, _ => none
  | fuel+1, cs =>
    match skipWs cs with
    | [] => none
    | c :: rest =>
      if c = '"' then
        match lexStr rest with
        | none => none
        | some (s, r) => some (Json.str s, r)
      else if c = '\x7b' then
        match skipWs rest with
        | d :: r2 =>
          if d = '\x7d' then some (Json.obj [], r2)
          else
            match parseM fuel (d :: r2) with
            | none => none
            | some (ms, r3) => some (Json.obj ms, r3)
        | [] => none
      else if c = '[' then
        match skipWs rest with
        | d :: r2 =>
          if d = ']' then some (Json.arr [], r2)
          else
            match parseA fuel (d :: r2) with
            | none => none
            | some (es, r3) => some (Json.arr es, r3)
        | [] => none
      else if c = 't' then
        match rest with
        | 'r' :: 'u' :: 'e' :: r2 => some (Json.bool true, r2)
        | _ => none
      else if c = 'f' then
        match rest with
        | 'a' :: 'l' :: 's' :: 'e' :: r2 => some (Json.bool false, r2)
        | _ => none
      else if c = 'n' then
        match rest with
        | 'u' :: 'l' :: 'l' :: r2 => some (Json.null, r2)
        | _ => none
      else
        if isJsonNumber ⟨(c :: rest).takeWhile numChar⟩ then
          some (Json.num ⟨(c :: rest).takeWhile numChar⟩,
            (c :: rest).dropWhile numChar)
        else none

def parseM : Nat → List Char → Option (List (String × Json) × List Char)
  | 0, _ => none
  | fuel+1, cs =>
    match skipWs cs with
    | c :: rest =>
      if c = '"' then
        match lexStr rest with
        | none => none
        | some (key, r2) =>
          match skipWs r2 with
          | ':' :: r3 =>
            match parseV fuel r3 with
            | none => none
            | some (v, r4) =>
              match skipWs r4 with
              | d :: r5 =>
                if d = ',' then
                  match parseM fuel r5 with
                  | none => none
                  | some (ms, r6) => some ((key, v) :: ms, r6)
                else if d = '\x7d' then some ([(key, v)], r5)
                else none
              | [] => none
          | _ => none
      else none
    | [] => none

def parseA : Nat → List Char → Option (List Json × List Char)
  | 0, _ => none
  | fuel+1, cs =>
    match parseV fuel cs with
    | none => none
    | some (v, r1) =>
      match skipWs r1 with
      | d :: r2 =>
        if d = ',' then
          match parseA fuel r2 with
          | none => none
          | some (es, r3) => some (v :: es, r3)
        else if d = ']' then some ([v], r2)
        else none
      | [] => none

end

def parseJson (s : String) : Option Json :=
  match parseV (s.data.length + 1) s.data with
  | some (j, rest) => if skipWs rest = [] then some j else none
  | none => none

def docFail (msg : String) : List Char :=
  '\x7b' :: '\n' :: ' ' :: ' ' :: ('"' :: ("success".data ++ '"' :: ':' :: ' ' ::
    (['f', 'a', 'l', 's', 'e'] ++ ',' :: ('\n' :: ' ' :: ' ' ::
      ('"' :: ("error".data ++ '"' :: ':' :: ' ' :: '"' ::
        (msg.data ++ '"' :: '\n' :: '\x7d' :: ['\n'])))))))

def docOk (nE dM aM gM eM eP : String) : List Char :=
  '\x7b' :: '\n' :: ' ' :: ' ' :: '"' :: ("success".data ++ '"' :: ':' :: ' ' :: (['t', 'r', 'u', 'e'] ++ ',' :: '\n' :: ' ' :: ' ' :: ('"' :: ("num_edges".data ++ '"' :: ':' :: ' ' :: (nE.data ++ ',' :: '\n' :: ' ' :: ' ' :: ('"' :: ("distance_m".data ++ '"' :: ':' :: ' ' :: (dM.data ++ ',' :: '\n' :: ' ' :: ' ' :: ('"' :: ("altitude_m".data ++ '"' :: ':' :: ' ' :: (aM.data ++ ',' :: '\n' :: ' ' :: ' ' :: ('"' :: ("ground_truth_m".data ++ '"' :: ':' :: ' ' :: (gM.data ++ ',' :: '\n' :: ' ' :: ' ' :: ('"' :: ("error_m".data ++ '"' :: ':' :: ' ' :: (eM.data ++ ',' :: '\n' :: ' ' :: ' ' :: ('"' :: ("error_percent".data ++ '"' :: ':' :: ' ' :: (eP.data ++ '\n' :: '\x7d' :: ['\n']))))))))))))))))))))

/-! ### Claims about `run_pipeline` and the output helpers -/

/-- C2: for every RunResult produced by `run_pipeline` (success or failure),
`error_percent = error_m / ground_truth_m * 100` holds on the returned
record. -/
theorem run_pipeline_error_percent_invariant (env : Env) (path : String)
    (camera : CameraConfig) (gt : ℚ) :
    (run_pipeline env path camera gt).error_percent =
      (run_pipeline env path camera gt).error_m /
        (run_pipeline env path camera gt).ground_truth_m * 100 := by
  unfold run_pipeline
  repeat' split
  all_goals first | rfl | simp

/-- C10: the returned record's `ground_truth_m` field equals the
`ground_truth_m` argument, in every outcome. -/
theorem run_pipeline_preserves_ground_truth (env : Env) (path : String)
    (camera : CameraConfig) (gt : ℚ) :
    (run_pipeline env path camera gt).ground_truth_m = gt := by
  unfold run_pipeline
  repeat' split
  all_goals rfl

/-- C4: on every successful run, the returned `error_percent` equals
`|distance_m - ground_truth_m| / ground_truth_m * 100`, stated on the
returned fields themselves. -/
theorem run_pipeline_success_error_percent (env : Env) (path : String)
    (camera : CameraConfig) (gt : ℚ)
    (h : (run_pipeline env path camera gt).success = true) :
    (run_pipeline env path camera gt).error_percent =
      |(run_pipeline env path camera gt).distance_m -
        (run_pipeline env path camera gt).ground_truth_m| /
        (run_pipeline env path camera gt).ground_truth_m * 100 := by
  unfold run_pipeline at h ⊢
  repeat' split at h
  all_goals simp_all

/-- Witness for C4: a concrete successful run. -/
theorem run_pipeline_success_error_percent_witness :
    (run_pipeline envOk "a.png" cam0 100).success = true ∧
      (run_pipeline envOk "a.png" cam0 100).error_percent =
        |(run_pipeline envOk "a.png" cam0 100).distance_m -
          (run_pipeline envOk "a.png" cam0 100).ground_truth_m| /
          (run_pipeline envOk "a.png" cam0 100).ground_truth_m * 100 :=
  ⟨by decide, run_pipeline_success_error_percent envOk "a.png" cam0 100 (by decide)⟩

/-- C5: when the file-existence probe fails, the result has
`success = false` and an error message mentioning "not found". -/
theorem run_pipeline_missing_file (env : Env) (path : String)
    (camera : CameraConfig) (gt : ℚ) (h : env.fopen_ok path = false) :
    (run_pipeline env path camera gt).success = false ∧
      ∃ pre post : String,
        (run_pipeline env path camera gt).error_message =
          pre ++ "not found" ++ post := by
  unfold run_pipeline
  rw [h]
  refine ⟨rfl, "Image file ", ": " ++ path, ?_⟩
  rw [← String.append_assoc]
  rfl

/-- Witness for C5: a concrete environment with no file. -/
theorem run_pipeline_missing_file_witness :
    envMissing.fopen_ok "x.png" = false ∧
      ((run_pipeline envMissing "x.png" cam0 1).success = false ∧
        ∃ pre post : String,
          (run_pipeline envMissing "x.png" cam0 1).error_message =
            pre ++ "not found" ++ post) :=
  ⟨by decide, run_pipeline_missing_file envMissing "x.png" cam0 1 (by decide)⟩

/-- C6: when the file exists but the decoder returns null, the result has
`success = false` and the decode-failure message
`"Could not load image: <path>"`. -/
theorem run_pipeline_decode_failure (env : Env) (path : String)
    (camera : CameraConfig) (gt : ℚ) (hfile : env.fopen_ok path = true)
    (hload : env.stbi_load path = none) :
    (run_pipeline env path camera gt).success = false ∧
      (run_pipeline env path camera gt).error_message =
        "Could not load image: " ++ path := by
  unfold run_pipeline
  simp [hfile, hload]

/-- Witness for C6: a concrete environment whose decoder fails. -/
theorem run_pipeline_decode_failure_witness :
    (envBadImage.fopen_ok "x.png" = true ∧ envBadImage.stbi_load "x.png" = none) ∧
      ((run_pipeline envBadImage "x.png" cam0 1).success = false ∧
        (run_pipeline envBadImage "x.png" cam0 1).error_message =
          "Could not load image: " ++ "x.png") :=
  ⟨⟨by decide, by decide⟩,
    run_pipeline_decode_failure envBadImage "x.png" cam0 1 (by decide) (by decide)⟩

/-- C7: when the image decodes but edge detection returns zero edge points,
the result has `success = false`, `num_edges = 0`, and error message
exactly `"No edges detected"`. -/
theorem run_pipeline_no_edges (env : Env) (path : String)
    (camera : CameraConfig) (gt : ℚ) (image : Image)
    (hfile : env.fopen_ok path = true)
    (hload : env.stbi_load path = some image)
    (hdet : env.edge_detect image = Except.ok []) :
    (run_pipeline env path camera gt).success = false ∧
      (run_pipeline env path camera gt).num_edges = 0 ∧
      (run_pipeline env path camera gt).error_message = "No edges detected" := by
  unfold run_pipeline
  simp [hfile, hload, hdet]

/-- Witness for C7: a concrete environment whose edge detector finds
nothing. -/
theorem run_pipeline_no_edges_witness :
    (envNoEdges.fopen_ok "x.png" = true ∧
        envNoEdges.stbi_load "x.png" = some img0 ∧
        envNoEdges.edge_detect img0 = Except.ok []) ∧
      ((run_pipeline envNoEdges "x.png" cam0 1).success = false ∧
        (run_pipeline envNoEdges "x.png" cam0 1).num_edges = 0 ∧
        (run_pipeline envNoEdges "x.png" cam0 1).error_message =
          "No edges detected") :=
  ⟨⟨by decide, rfl, rfl⟩,
    run_pipeline_no_edges envNoEdges "x.png" cam0 1 img0 (by decide) rfl rfl⟩

/-- C3: an exception thrown by edge detection or by distance determination
is caught: `run_pipeline` still returns (it is a total function into
`RunResult`), with `success = false` and `error_message` equal to the
stringified exception message. -/
theorem run_pipeline_catches_exceptions (env : Env) (path : String)
    (camera : CameraConfig) (gt : ℚ) (image : Image) (e : String)
    (hfile : env.fopen_ok path = true)
    (hload : env.stbi_load path = some image)
    (hexc : env.edge_detect image = Except.error e ∨
      ∃ edges, env.edge_detect image = Except.ok edges ∧ edges ≠ [] ∧
        env.distance_run (mkCamera camera image) edges = Except.error e) :
    (run_pipeline env path camera gt).success = false ∧
      (run_pipeline env path camera gt).error_message = e := by
  unfold run_pipeline
  rcases hexc with hdet | ⟨edges, hdet, hne, hdist⟩
  · simp [hfile, hload, hdet]
  · simp [hfile, hload, hdet, hne, hdist, List.length_eq_zero]

/-- Witness for C3: a concrete environment whose edge detector throws. -/
theorem run_pipeline_catches_exceptions_witness :
    (run_pipeline envThrow "x.png" cam0 1).success = false ∧
      (run_pipeline envThrow "x.png" cam0 1).error_message = "boom" :=
  run_pipeline_catches_exceptions envThrow "x.png" cam0 1 img0 "boom"
    (by decide) rfl (Or.inl rfl)

/-- C8: `print_result` and `write_result_json` do not mutate the record
passed to them: in the state-passing model, both return the record they
were given, in every branch (including the unwritable-path branch). -/
theorem print_write_leave_result_unchanged (env : Env) (fmtD : ℚ → String)
    (fmtI : Int → String) (r : RunResult) (path : String) :
    (print_result fmtD fmtI r).2 = r ∧
      (write_result_json env fmtD fmtI r path).2 = r := by
  constructor
  · unfold print_result
    split
    all_goals rfl
  · unfold write_result_json
    split
    all_goals rfl

/-- A string with a nonempty first component is a nonempty concatenation. -/
theorem append_ne_empty_left (s t : String) (h : s.data ≠ []) : s ++ t ≠ "" := by
  intro hc
  have h2 : s.data ++ t.data = [] := by
    have h3 := congrArg String.data hc
    rwa [String.data_append] at h3
  rcases List.append_eq_nil.mp h2 with ⟨h3, _⟩
  exact h h3

/-- C9 counterexample: with an exception whose `what()` stringifies to the
empty string, `run_pipeline` returns `success = false` together with an
empty `error_message`, so success is not equivalent to an empty error
message. -/
theorem empty_exception_message_breaks_success_iff :
    ¬ (((run_pipeline envEmptyMsg "x.png" cam0 1).success = true) ↔
        ((run_pipeline envEmptyMsg "x.png" cam0 1).error_message = "")) := by
  decide

/-- C9 (amended): provided every exception message the external algorithms
can throw is nonempty, the returned record has `success = true` exactly when
`error_message` is empty. -/
theorem run_pipeline_success_iff_empty_error (env : Env) (path : String)
    (camera : CameraConfig) (gt : ℚ)
    (hdet : ∀ image e, env.edge_detect image = Except.error e → e ≠ "")
    (hdist : ∀ c edges e, env.distance_run c edges = Except.error e → e ≠ "") :
    (run_pipeline env path camera gt).success = true ↔
      (run_pipeline env path camera gt).error_message = "" := by
  unfold run_pipeline
  split
  · exact iff_of_false (by simp) (append_ne_empty_left _ _ (by decide))
  · split
    · exact iff_of_false (by simp) (append_ne_empty_left _ _ (by decide))
    · split
      · next e heq => exact iff_of_false (by simp) (hdet _ _ heq)
      · split
        · exact iff_of_false (by simp) (fun hc => by simp at hc)
        · split
          · next e heq => exact iff_of_false (by simp) (hdist _ _ _ heq)
          · exact iff_of_true rfl rfl

/-- Witness for the amended C9 on a concrete successful environment. -/
theorem run_pipeline_success_iff_empty_error_witness :
    (run_pipeline envOk "a.png" cam0 100).success = true ↔
      (run_pipeline envOk "a.png" cam0 100).error_message = "" :=
  run_pipeline_success_iff_empty_error envOk "a.png" cam0 100
    (fun image e h => by simp [envOk] at h)
    (fun c edges e h => by simp [envOk] at h)


/-! ### Parsing lemmas for the writer output -/

theorem skipWs_cons_ws {c : Char} (h : isWsChar c = true) (l : List Char) :
    skipWs (c :: l) = skipWs l := by
  simp [skipWs, List.dropWhile_cons, h]

theorem skipWs_cons_not {c : Char} (h : isWsChar c = false) (l : List Char) :
    skipWs (c :: l) = c :: l := by
  simp [skipWs, List.dropWhile_cons, h]

theorem skipWs_idem (cs : List Char) : skipWs (skipWs cs) = skipWs cs := by
  induction cs with
  | nil => rfl
  | cons c t ih =>
    by_cases h : isWsChar c = true
    · rw [skipWs_cons_ws h, ih]
    · rw [skipWs_cons_not (by simpa using h), skipWs_cons_not (by simpa using h)]

theorem takeWhile_append_stop {p : Char → Bool} {l : List Char}
    (h : ∀ c ∈ l, p c = true) {d : Char} (hd : p d = false) (r : List Char) :
    (l ++ d :: r).takeWhile p = l := by
  induction l with
  | nil => simp [List.takeWhile_cons, hd]
  | cons c t ih =>
    simp only [List.cons_append, List.takeWhile_cons, h c (by simp)]
    rw [ih (fun x hx => h x (by simp [hx]))]
    simp

theorem dropWhile_append_stop {p : Char → Bool} {l : List Char}
    (h : ∀ c ∈ l, p c = true) {d : Char} (hd : p d = false) (r : List Char) :
    (l ++ d :: r).dropWhile p = d :: r := by
  induction l with
  | nil => simp [List.dropWhile_cons, hd]
  | cons c t ih =>
    simp only [List.cons_append, List.dropWhile_cons, h c (by simp)]
    exact ih (fun x hx => h x (by simp [hx]))

theorem lexStrAux_clean {l : List Char} (h : ∀ c ∈ l, cleanChar c = true)
    (rest acc : List Char) :
    lexStrAux (l ++ '"' :: rest) false acc = some (⟨acc.reverse ++ l⟩, rest) := by
  induction l generalizing acc with
  | nil => simp [lexStrAux]
  | cons c t ih =>
    have hc := h c (by simp)
    have h1 : ¬(c = '"') := by
      intro hq; rw [hq] at hc; simp [cleanChar] at hc
    have h2 : ¬(c = '\\') := by
      intro hq; rw [hq] at hc; simp [cleanChar] at hc
    have h3 : ¬(c.toNat < 32) := by
      intro hq; simp [cleanChar, hq] at hc
    simp only [List.cons_append, lexStrAux, List.append_eq]
    rw [if_neg (by simp : ¬(false = true)), if_neg h1, if_neg h2, if_neg h3,
      ih (fun x hx => h x (by simp [hx]))]
    simp

theorem lexStr_clean {l : List Char} (h : ∀ c ∈ l, cleanChar c = true)
    (rest : List Char) : lexStr (l ++ '"' :: rest) = some (⟨l⟩, rest) := by
  rw [lexStr, lexStrAux_clean h]
  rfl

theorem strMk_data (s : String) : String.mk s.data = s := rfl

theorem numChar_not_special {c : Char} (h : numChar c = true) :
    ¬(c = '"') ∧ ¬(c = '\x7b') ∧ ¬(c = '[') ∧ ¬(c = 't') ∧ ¬(c = 'f') ∧
      ¬(c = 'n') ∧ isWsChar c = false := by
  refine ⟨?_, ?_, ?_, ?_, ?_, ?_, ?_⟩
  · intro hq; rw [hq] at h; exact absurd h (by decide)
  · intro hq; rw [hq] at h; exact absurd h (by decide)
  · intro hq; rw [hq] at h; exact absurd h (by decide)
  · intro hq; rw [hq] at h; exact absurd h (by decide)
  · intro hq; rw [hq] at h; exact absurd h (by decide)
  · intro hq; rw [hq] at h; exact absurd h (by decide)
  · cases hw : isWsChar c
    · rfl
    · exfalso
      have h1 : c = ' ' ∨ c = '\n' ∨ c = '\t' ∨ c = '\r' := by
        simpa [isWsChar, or_assoc] using hw
      rcases h1 with h1 | h1 | h1 | h1 <;> rw [h1] at h <;> exact absurd h (by decide)

theorem parseV_num (n : Nat) {tok : String} (h : numToken tok = true) {d : Char}
    (hd : numChar d = false) (r : List Char) {cs : List Char}
    (hcs : skipWs cs = tok.data ++ d :: r) :
    parseV (n + 1) cs = some (Json.num tok, d :: r) := by
  have h3 := h
  simp only [numToken, Bool.and_eq_true] at h3
  obtain ⟨⟨hne, hall⟩, hnum⟩ := h3
  rcases htok : tok.data with _ | ⟨c, t⟩
  · rw [htok] at hne; simp at hne
  · have hallm : ∀ x ∈ tok.data, numChar x = true := by
      intro x hx
      have := List.all_eq_true.mp hall x hx
      simpa using this
    have hc : numChar c = true := hallm c (by rw [htok]; simp)
    have hs := numChar_not_special hc
    rw [htok] at hcs hallm
    simp only [parseV, hcs, List.cons_append]
    rw [if_neg hs.1, if_neg hs.2.1, if_neg hs.2.2.1, if_neg hs.2.2.2.1,
      if_neg hs.2.2.2.2.1, if_neg hs.2.2.2.2.2.1]
    rw [← List.cons_append, takeWhile_append_stop hallm hd,
      dropWhile_append_stop hallm hd, ← htok, strMk_data]
    rw [if_pos hnum]

theorem skipWs_numToken {tok : String} (h : numToken tok = true) (l : List Char) :
    skipWs (tok.data ++ l) = tok.data ++ l := by
  have h3 := h
  simp only [numToken, Bool.and_eq_true] at h3
  obtain ⟨⟨hne, hall⟩, _⟩ := h3
  rcases htok : tok.data with _ | ⟨c, t⟩
  · rw [htok] at hne; simp at hne
  · have hc : numChar c = true := by
      have := List.all_eq_true.mp hall c (by rw [htok]; simp)
      simpa using this
    rw [List.cons_append]
    exact skipWs_cons_not (numChar_not_special hc).2.2.2.2.2.2 _

theorem parseM_member_num (n : Nat) (kd : List Char)
    (hk : ∀ c ∈ kd, cleanChar c = true) {tok : String} (ht : numToken tok = true)
    (tail : List Char) {cs : List Char}
    (hcs : skipWs cs = '"' :: (kd ++ '"' :: ':' :: ' ' :: (tok.data ++ ',' :: tail))) :
    parseM (n + 2) cs =
      match parseM (n + 1) tail with
      | none => none
      | some (ms, r6) => some ((⟨kd⟩, Json.num tok) :: ms, r6) := by
  have hv : parseV (n + 1) (' ' :: (tok.data ++ ',' :: tail)) =
      some (Json.num tok, ',' :: tail) := by
    apply parseV_num n ht (by decide)
    rw [skipWs_cons_ws (by decide), skipWs_numToken ht]
  show parseM ((n + 1) + 1) cs = _
  conv_lhs => unfold parseM
  simp +decide only [hcs, lexStr_clean hk, skipWs_cons_not, skipWs_cons_ws, hv,
    if_true, if_false]

theorem parseM_member_last (n : Nat) (kd : List Char)
    (hk : ∀ c ∈ kd, cleanChar c = true) {tok : String} (ht : numToken tok = true)
    (tail : List Char) {cs : List Char}
    (hcs : skipWs cs =
      '"' :: (kd ++ '"' :: ':' :: ' ' :: (tok.data ++ '\n' :: '\x7d' :: tail))) :
    parseM (n + 2) cs = some ([(⟨kd⟩, Json.num tok)], tail) := by
  have hv : parseV (n + 1) (' ' :: (tok.data ++ '\n' :: '\x7d' :: tail)) =
      some (Json.num tok, '\n' :: '\x7d' :: tail) := by
    apply parseV_num n ht (by decide)
    rw [skipWs_cons_ws (by decide), skipWs_numToken ht]
  show parseM ((n + 1) + 1) cs = _
  conv_lhs => unfold parseM
  simp +decide only [hcs, lexStr_clean hk, skipWs_cons_not, skipWs_cons_ws, hv,
    if_true, if_false]

theorem parseV_true (n : Nat) (tail : List Char) :
    parseV (n + 1) (' ' :: 't' :: 'r' :: 'u' :: 'e' :: tail) =
      some (Json.bool true, tail) := by
  conv_lhs => unfold parseV
  simp +decide only [skipWs_cons_ws, skipWs_cons_not, if_true, if_false]

theorem parseV_false (n : Nat) (tail : List Char) :
    parseV (n + 1) (' ' :: 'f' :: 'a' :: 'l' :: 's' :: 'e' :: tail) =
      some (Json.bool false, tail) := by
  conv_lhs => unfold parseV
  simp +decide only [skipWs_cons_ws, skipWs_cons_not, if_true, if_false]

theorem parseM_member_bool (n : Nat) (kd : List Char)
    (hk : ∀ c ∈ kd, cleanChar c = true) (b : Bool) (tail : List Char)
    {cs : List Char}
    (hcs : skipWs cs = '"' :: (kd ++ '"' :: ':' :: ' ' ::
      ((if b then ['t', 'r', 'u', 'e'] else ['f', 'a', 'l', 's', 'e']) ++
        ',' :: tail))) :
    parseM (n + 2) cs =
      match parseM (n + 1) tail with
      | none => none
      | some (ms, r6) => some ((⟨kd⟩, Json.bool b) :: ms, r6) := by
  show parseM ((n + 1) + 1) cs = _
  conv_lhs => unfold parseM
  cases b
  · simp +decide only [if_true, if_false] at hcs
    simp +decide only [hcs, lexStr_clean hk, skipWs_cons_not, skipWs_cons_ws,
      List.cons_append, List.nil_append, parseV_false, if_true, if_false]
  · simp +decide only [if_true, if_false] at hcs
    simp +decide only [hcs, lexStr_clean hk, skipWs_cons_not, skipWs_cons_ws,
      List.cons_append, List.nil_append, parseV_true, if_true, if_false]

theorem parseV_str (n : Nat) {sd : List Char}
    (hsd : ∀ c ∈ sd, cleanChar c = true) (tail : List Char) :
    parseV (n + 1) (' ' :: '"' :: (sd ++ '"' :: tail)) =
      some (Json.str ⟨sd⟩, tail) := by
  conv_lhs => unfold parseV
  simp +decide only [skipWs_cons_ws, skipWs_cons_not, lexStr_clean hsd,
    if_true, if_false]

theorem parseM_member_str_last (n : Nat) (kd : List Char)
    (hk : ∀ c ∈ kd, cleanChar c = true) {sd : List Char}
    (hsd : ∀ c ∈ sd, cleanChar c = true) (tail : List Char) {cs : List Char}
    (hcs : skipWs cs = '"' :: (kd ++ '"' :: ':' :: ' ' :: '"' ::
      (sd ++ '"' :: '\n' :: '\x7d' :: tail))) :
    parseM (n + 2) cs = some ([(⟨kd⟩, Json.str ⟨sd⟩)], tail) := by
  have hv : parseV (n + 1) (' ' :: '"' :: (sd ++ '"' :: '\n' :: '\x7d' :: tail)) =
      some (Json.str ⟨sd⟩, '\n' :: '\x7d' :: tail) := parseV_str n hsd _
  show parseM ((n + 1) + 1) cs = _
  conv_lhs => unfold parseM
  simp +decide only [hcs, lexStr_clean hk, skipWs_cons_not, skipWs_cons_ws, hv,
    if_true, if_false]


theorem parse_fail_doc (n : Nat) {msg : String}
    (hmsg : ∀ c ∈ msg.data, cleanChar c = true) :
    parseV (n + 4) (docFail msg) =
      some (Json.obj [("success", Json.bool false), ("error", Json.str msg)],
        ['\n']) := by
  have h1 : parseM (n + 2) ('\n' :: ' ' :: ' ' ::
      ('"' :: ("error".data ++ '"' :: ':' :: ' ' :: '"' ::
        (msg.data ++ '"' :: '\n' :: '\x7d' :: ['\n'])))) =
      some ([("error", Json.str msg)], ['\n']) := by
    exact parseM_member_str_last n ("error".data) (by decide) hmsg ['\n']
      (by rw [skipWs_cons_ws (by decide), skipWs_cons_ws (by decide),
        skipWs_cons_ws (by decide), skipWs_cons_not (by decide)])
  have h2 : parseM (n + 3) ('"' :: ("success".data ++ '"' :: ':' :: ' ' ::
      (['f', 'a', 'l', 's', 'e'] ++ ',' :: ('\n' :: ' ' :: ' ' ::
        ('"' :: ("error".data ++ '"' :: ':' :: ' ' :: '"' ::
          (msg.data ++ '"' :: '\n' :: '\x7d' :: ['\n']))))))) =
      some ([("success", Json.bool false), ("error", Json.str msg)], ['\n']) := by
    have hcB : skipWs ('"' :: ("success".data ++ '"' :: ':' :: ' ' ::
        (['f', 'a', 'l', 's', 'e'] ++ ',' :: ('\n' :: ' ' :: ' ' ::
          ('"' :: ("error".data ++ '"' :: ':' :: ' ' :: '"' ::
            (msg.data ++ '"' :: '\n' :: '\x7d' :: ['\n']))))))) =
        '"' :: ("success".data ++ '"' :: ':' :: ' ' ::
        (['f', 'a', 'l', 's', 'e'] ++ ',' :: ('\n' :: ' ' :: ' ' ::
          ('"' :: ("error".data ++ '"' :: ':' :: ' ' :: '"' ::
            (msg.data ++ '"' :: '\n' :: '\x7d' :: ['\n'])))))) := by
      rw [skipWs_cons_not (by decide)]
    have hb := parseM_member_bool (n + 1) ("success".data) (by decide) false
      ('\n' :: ' ' :: ' ' :: ('"' :: ("error".data ++ '"' :: ':' :: ' ' :: '"' ::
        (msg.data ++ '"' :: '\n' :: '\x7d' :: ['\n'])))) hcB
    rw [h1] at hb
    exact hb
  show parseV ((n + 3) + 1) (docFail msg) = _
  conv_lhs => unfold parseV
  simp +decide only [docFail, skipWs_cons_not, skipWs_cons_ws, h2, if_true,
    if_false]


theorem parse_ok_doc (n : Nat) {nE dM aM gM eM eP : String}
    (hNE : numToken nE = true) (hDM : numToken dM = true)
    (hAM : numToken aM = true) (hGM : numToken gM = true)
    (hEM : numToken eM = true) (hEP : numToken eP = true) :
    parseV (n + 9) (docOk nE dM aM gM eM eP) =
      some (Json.obj [("success", Json.bool true), ("num_edges", Json.num nE), ("distance_m", Json.num dM), ("altitude_m", Json.num aM), ("ground_truth_m", Json.num gM), ("error_m", Json.num eM), ("error_percent", Json.num eP)], ['\n']) := by
  have hc7 : skipWs ('\n' :: ' ' :: ' ' :: ('"' :: ("error_percent".data ++ '"' :: ':' :: ' ' :: (eP.data ++ '\n' :: '\x7d' :: ['\n'])))) = '"' :: ("error_percent".data ++ '"' :: ':' :: ' ' :: (eP.data ++ '\n' :: '\x7d' :: ['\n'])) := by rw [skipWs_cons_ws (by decide), skipWs_cons_ws (by decide), skipWs_cons_ws (by decide), skipWs_cons_not (by decide)]
  have h7 : parseM (n + 2) ('\n' :: ' ' :: ' ' :: ('"' :: ("error_percent".data ++ '"' :: ':' :: ' ' :: (eP.data ++ '\n' :: '\x7d' :: ['\n'])))) =
      some ([("error_percent", Json.num eP)], ['\n']) :=
    parseM_member_last n ("error_percent".data) (by decide) hEP ['\n'] hc7
  have hc6 : skipWs ('\n' :: ' ' :: ' ' :: ('"' :: ("error_m".data ++ '"' :: ':' :: ' ' :: (eM.data ++ ',' :: '\n' :: ' ' :: ' ' :: ('"' :: ("error_percent".data ++ '"' :: ':' :: ' ' :: (eP.data ++ '\n' :: '\x7d' :: ['\n']))))))) = '"' :: ("error_m".data ++ '"' :: ':' :: ' ' :: (eM.data ++ ',' :: '\n' :: ' ' :: ' ' :: ('"' :: ("error_percent".data ++ '"' :: ':' :: ' ' :: (eP.data ++ '\n' :: '\x7d' :: ['\n']))))) := by rw [skipWs_cons_ws (by decide), skipWs_cons_ws (by decide), skipWs_cons_ws (by decide), skipWs_cons_not (by decide)]
  have h6 : parseM (n + 3) ('\n' :: ' ' :: ' ' :: ('"' :: ("error_m".data ++ '"' :: ':' :: ' ' :: (eM.data ++ ',' :: '\n' :: ' ' :: ' ' :: ('"' :: ("error_percent".data ++ '"' :: ':' :: ' ' :: (eP.data ++ '\n' :: '\x7d' :: ['\n']))))))) = some ([("error_m", Json.num eM), ("error_percent", Json.num eP)], ['\n']) := by
    have hm := parseM_member_num (n + 1) ("error_m".data) (by decide) hEM
      ('\n' :: ' ' :: ' ' :: ('"' :: ("error_percent".data ++ '"' :: ':' :: ' ' :: (eP.data ++ '\n' :: '\x7d' :: ['\n'])))) hc6
    rw [h7] at hm
    exact hm
  have hc5 : skipWs ('\n' :: ' ' :: ' ' :: ('"' :: ("ground_truth_m".data ++ '"' :: ':' :: ' ' :: (gM.data ++ ',' :: '\n' :: ' ' :: ' ' :: ('"' :: ("error_m".data ++ '"' :: ':' :: ' ' :: (eM.data ++ ',' :: '\n' :: ' ' :: ' ' :: ('"' :: ("error_percent".data ++ '"' :: ':' :: ' ' :: (eP.data ++ '\n' :: '\x7d' :: ['\n'])))))))))) = '"' :: ("ground_truth_m".data ++ '"' :: ':' :: ' ' :: (gM.data ++ ',' :: '\n' :: ' ' :: ' ' :: ('"' :: ("error_m".data ++ '"' :: ':' :: ' ' :: (eM.data ++ ',' :: '\n' :: ' ' :: ' ' :: ('"' :: ("error_percent".data ++ '"' :: ':' :: ' ' :: (eP.data ++ '\n' :: '\x7d' :: ['\n'])))))))) := by rw [skipWs_cons_ws (by decide), skipWs_cons_ws (by decide), skipWs_cons_ws (by decide), skipWs_cons_not (by decide)]
  have h5 : parseM (n + 4) ('\n' :: ' ' :: ' ' :: ('"' :: ("ground_truth_m".data ++ '"' :: ':' :: ' ' :: (gM.data ++ ',' :: '\n' :: ' ' :: ' ' :: ('"' :: ("error_m".data ++ '"' :: ':' :: ' ' :: (eM.data ++ ',' :: '\n' :: ' ' :: ' ' :: ('"' :: ("error_percent".data ++ '"' :: ':' :: ' ' :: (eP.data ++ '\n' :: '\x7d' :: ['\n'])))))))))) = some ([("ground_truth_m", Json.num gM), ("error_m", Json.num eM), ("error_percent", Json.num eP)], ['\n']) := by
    have hm := parseM_member_num (n + 2) ("ground_truth_m".data) (by decide) hGM
      ('\n' :: ' ' :: ' ' :: ('"' :: ("error_m".data ++ '"' :: ':' :: ' ' :: (eM.data ++ ',' :: '\n' :: ' ' :: ' ' :: ('"' :: ("error_percent".data ++ '"' :: ':' :: ' ' :: (eP.data ++ '\n' :: '\x7d' :: ['\n']))))))) hc5
    rw [h6] at hm
    exact hm
  have hc4 : skipWs ('\n' :: ' ' :: ' ' :: ('"' :: ("altitude_m".data ++ '"' :: ':' :: ' ' :: (aM.data ++ ',' :: '\n' :: ' ' :: ' ' :: ('"' :: ("ground_truth_m".data ++ '"' :: ':' :: ' ' :: (gM.data ++ ',' :: '\n' :: ' ' :: ' ' :: ('"' :: ("error_m".data ++ '"' :: ':' :: ' ' :: (eM.data ++ ',' :: '\n' :: ' ' :: ' ' :: ('"' :: ("error_percent".data ++ '"' :: ':' :: ' ' :: (eP.data ++ '\n' :: '\x7d' :: ['\n']))))))))))))) = '"' :: ("altitude_m".data ++ '"' :: ':' :: ' ' :: (aM.data ++ ',' :: '\n' :: ' ' :: ' ' :: ('"' :: ("ground_truth_m".data ++ '"' :: ':' :: ' ' :: (gM.data ++ ',' :: '\n' :: ' ' :: ' ' :: ('"' :: ("error_m".data ++ '"' :: ':' :: ' ' :: (eM.data ++ ',' :: '\n' :: ' ' :: ' ' :: ('"' :: ("error_percent".data ++ '"' :: ':' :: ' ' :: (eP.data ++ '\n' :: '\x7d' :: ['\n']))))))))))) := by rw [skipWs_cons_ws (by decide), skipWs_cons_ws (by decide), skipWs_cons_ws (by decide), skipWs_cons_not (by decide)]
  have h4 : parseM (n + 5) ('\n' :: ' ' :: ' ' :: ('"' :: ("altitude_m".data ++ '"' :: ':' :: ' ' :: (aM.data ++ ',' :: '\n' :: ' ' :: ' ' :: ('"' :: ("ground_truth_m".data ++ '"' :: ':' :: ' ' :: (gM.data ++ ',' :: '\n' :: ' ' :: ' ' :: ('"' :: ("error_m".data ++ '"' :: ':' :: ' ' :: (eM.data ++ ',' :: '\n' :: ' ' :: ' ' :: ('"' :: ("error_percent".data ++ '"' :: ':' :: ' ' :: (eP.data ++ '\n' :: '\x7d' :: ['\n']))))))))))))) = some ([("altitude_m", Json.num aM), ("ground_truth_m", Json.num gM), ("error_m", Json.num eM), ("error_percent", Json.num eP)], ['\n']) := by
    have hm := parseM_member_num (n + 3) ("altitude_m".data) (by decide) hAM
      ('\n' :: ' ' :: ' ' :: ('"' :: ("ground_truth_m".data ++ '"' :: ':' :: ' ' :: (gM.data ++ ',' :: '\n' :: ' ' :: ' ' :: ('"' :: ("error_m".data ++ '"' :: ':' :: ' ' :: (eM.data ++ ',' :: '\n' :: ' ' :: ' ' :: ('"' :: ("error_percent".data ++ '"' :: ':' :: ' ' :: (eP.data ++ '\n' :: '\x7d' :: ['\n'])))))))))) hc4
    rw [h5] at hm
    exact hm
  have hc3 : skipWs ('\n' :: ' ' :: ' ' :: ('"' :: ("distance_m".data ++ '"' :: ':' :: ' ' :: (dM.data ++ ',' :: '\n' :: ' ' :: ' ' :: ('"' :: ("altitude_m".data ++ '"' :: ':' :: ' ' :: (aM.data ++ ',' :: '\n' :: ' ' :: ' ' :: ('"' :: ("ground_truth_m".data ++ '"' :: ':' :: ' ' :: (gM.data ++ ',' :: '\n' :: ' ' :: ' ' :: ('"' :: ("error_m".data ++ '"' :: ':' :: ' ' :: (eM.data ++ ',' :: '\n' :: ' ' :: ' ' :: ('"' :: ("error_percent".data ++ '"' :: ':' :: ' ' :: (eP.data ++ '\n' :: '\x7d' :: ['\n'])))))))))))))))) = '"' :: ("distance_m".data ++ '"' :: ':' :: ' ' :: (dM.data ++ ',' :: '\n' :: ' ' :: ' ' :: ('"' :: ("altitude_m".data ++ '"' :: ':' :: ' ' :: (aM.data ++ ',' :: '\n' :: ' ' :: ' ' :: ('"' :: ("ground_truth_m".data ++ '"' :: ':' :: ' ' :: (gM.data ++ ',' :: '\n' :: ' ' :: ' ' :: ('"' :: ("error_m".data ++ '"' :: ':' :: ' ' :: (eM.data ++ ',' :: '\n' :: ' ' :: ' ' :: ('"' :: ("error_percent".data ++ '"' :: ':' :: ' ' :: (eP.data ++ '\n' :: '\x7d' :: ['\n'])))))))))))))) := by rw [skipWs_cons_ws (by decide), skipWs_cons_ws (by decide), skipWs_cons_ws (by decide), skipWs_cons_not (by decide)]
  have h3 : parseM (n + 6) ('\n' :: ' ' :: ' ' :: ('"' :: ("distance_m".data ++ '"' :: ':' :: ' ' :: (dM.data ++ ',' :: '\n' :: ' ' :: ' ' :: ('"' :: ("altitude_m".data ++ '"' :: ':' :: ' ' :: (aM.data ++ ',' :: '\n' :: ' ' :: ' ' :: ('"' :: ("ground_truth_m".data ++ '"' :: ':' :: ' ' :: (gM.data ++ ',' :: '\n' :: ' ' :: ' ' :: ('"' :: ("error_m".data ++ '"' :: ':' :: ' ' :: (eM.data ++ ',' :: '\n' :: ' ' :: ' ' :: ('"' :: ("error_percent".data ++ '"' :: ':' :: ' ' :: (eP.data ++ '\n' :: '\x7d' :: ['\n'])))))))))))))))) = some ([("distance_m", Json.num dM), ("altitude_m", Json.num aM), ("ground_truth_m", Json.num gM), ("error_m", Json.num eM), ("error_percent", Json.num eP)], ['\n']) := by
    have hm := parseM_member_num (n + 4) ("distance_m".data) (by decide) hDM
      ('\n' :: ' ' :: ' ' :: ('"' :: ("altitude_m".data ++ '"' :: ':' :: ' ' :: (aM.data ++ ',' :: '\n' :: ' ' :: ' ' :: ('"' :: ("ground_truth_m".data ++ '"' :: ':' :: ' ' :: (gM.data ++ ',' :: '\n' :: ' ' :: ' ' :: ('"' :: ("error_m".data ++ '"' :: ':' :: ' ' :: (eM.data ++ ',' :: '\n' :: ' ' :: ' ' :: ('"' :: ("error_percent".data ++ '"' :: ':' :: ' ' :: (eP.data ++ '\n' :: '\x7d' :: ['\n']))))))))))))) hc3
    rw [h4] at hm
    exact hm
  have hc2 : skipWs ('\n' :: ' ' :: ' ' :: ('"' :: ("num_edges".data ++ '"' :: ':' :: ' ' :: (nE.data ++ ',' :: '\n' :: ' ' :: ' ' :: ('"' :: ("distance_m".data ++ '"' :: ':' :: ' ' :: (dM.data ++ ',' :: '\n' :: ' ' :: ' ' :: ('"' :: ("altitude_m".data ++ '"' :: ':' :: ' ' :: (aM.data ++ ',' :: '\n' :: ' ' :: ' ' :: ('"' :: ("ground_truth_m".data ++ '"' :: ':' :: ' ' :: (gM.data ++ ',' :: '\n' :: ' ' :: ' ' :: ('"' :: ("error_m".data ++ '"' :: ':' :: ' ' :: (eM.data ++ ',' :: '\n' :: ' ' :: ' ' :: ('"' :: ("error_percent".data ++ '"' :: ':' :: ' ' :: (eP.data ++ '\n' :: '\x7d' :: ['\n']))))))))))))))))))) = '"' :: ("num_edges".data ++ '"' :: ':' :: ' ' :: (nE.data ++ ',' :: '\n' :: ' ' :: ' ' :: ('"' :: ("distance_m".data ++ '"' :: ':' :: ' ' :: (dM.data ++ ',' :: '\n' :: ' ' :: ' ' :: ('"' :: ("altitude_m".data ++ '"' :: ':' :: ' ' :: (aM.data ++ ',' :: '\n' :: ' ' :: ' ' :: ('"' :: ("ground_truth_m".data ++ '"' :: ':' :: ' ' :: (gM.data ++ ',' :: '\n' :: ' ' :: ' ' :: ('"' :: ("error_m".data ++ '"' :: ':' :: ' ' :: (eM.data ++ ',' :: '\n' :: ' ' :: ' ' :: ('"' :: ("error_percent".data ++ '"' :: ':' :: ' ' :: (eP.data ++ '\n' :: '\x7d' :: ['\n']))))))))))))))))) := by rw [skipWs_cons_ws (by decide), skipWs_cons_ws (by decide), skipWs_cons_ws (by decide), skipWs_cons_not (by decide)]
  have h2 : parseM (n + 7) ('\n' :: ' ' :: ' ' :: ('"' :: ("num_edges".data ++ '"' :: ':' :: ' ' :: (nE.data ++ ',' :: '\n' :: ' ' :: ' ' :: ('"' :: ("distance_m".data ++ '"' :: ':' :: ' ' :: (dM.data ++ ',' :: '\n' :: ' ' :: ' ' :: ('"' :: ("altitude_m".data ++ '"' :: ':' :: ' ' :: (aM.data ++ ',' :: '\n' :: ' ' :: ' ' :: ('"' :: ("ground_truth_m".data ++ '"' :: ':' :: ' ' :: (gM.data ++ ',' :: '\n' :: ' ' :: ' ' :: ('"' :: ("error_m".data ++ '"' :: ':' :: ' ' :: (eM.data ++ ',' :: '\n' :: ' ' :: ' ' :: ('"' :: ("error_percent".data ++ '"' :: ':' :: ' ' :: (eP.data ++ '\n' :: '\x7d' :: ['\n']))))))))))))))))))) = some ([("num_edges", Json.num nE), ("distance_m", Json.num dM), ("altitude_m", Json.num aM), ("ground_truth_m", Json.num gM), ("error_m", Json.num eM), ("error_percent", Json.num eP)], ['\n']) := by
    have hm := parseM_member_num (n + 5) ("num_edges".data) (by decide) hNE
      ('\n' :: ' ' :: ' ' :: ('"' :: ("distance_m".data ++ '"' :: ':' :: ' ' :: (dM.data ++ ',' :: '\n' :: ' ' :: ' ' :: ('"' :: ("altitude_m".data ++ '"' :: ':' :: ' ' :: (aM.data ++ ',' :: '\n' :: ' ' :: ' ' :: ('"' :: ("ground_truth_m".data ++ '"' :: ':' :: ' ' :: (gM.data ++ ',' :: '\n' :: ' ' :: ' ' :: ('"' :: ("error_m".data ++ '"' :: ':' :: ' ' :: (eM.data ++ ',' :: '\n' :: ' ' :: ' ' :: ('"' :: ("error_percent".data ++ '"' :: ':' :: ' ' :: (eP.data ++ '\n' :: '\x7d' :: ['\n'])))))))))))))))) hc2
    rw [h3] at hm
    exact hm
  have hc1 : skipWs ('"' :: ("success".data ++ '"' :: ':' :: ' ' :: (['t', 'r', 'u', 'e'] ++ ',' :: '\n' :: ' ' :: ' ' :: ('"' :: ("num_edges".data ++ '"' :: ':' :: ' ' :: (nE.data ++ ',' :: '\n' :: ' ' :: ' ' :: ('"' :: ("distance_m".data ++ '"' :: ':' :: ' ' :: (dM.data ++ ',' :: '\n' :: ' ' :: ' ' :: ('"' :: ("altitude_m".data ++ '"' :: ':' :: ' ' :: (aM.data ++ ',' :: '\n' :: ' ' :: ' ' :: ('"' :: ("ground_truth_m".data ++ '"' :: ':' :: ' ' :: (gM.data ++ ',' :: '\n' :: ' ' :: ' ' :: ('"' :: ("error_m".data ++ '"' :: ':' :: ' ' :: (eM.data ++ ',' :: '\n' :: ' ' :: ' ' :: ('"' :: ("error_percent".data ++ '"' :: ':' :: ' ' :: (eP.data ++ '\n' :: '\x7d' :: ['\n']))))))))))))))))))))) = '"' :: ("success".data ++ '"' :: ':' :: ' ' :: (['t', 'r', 'u', 'e'] ++ ',' :: '\n' :: ' ' :: ' ' :: ('"' :: ("num_edges".data ++ '"' :: ':' :: ' ' :: (nE.data ++ ',' :: '\n' :: ' ' :: ' ' :: ('"' :: ("distance_m".data ++ '"' :: ':' :: ' ' :: (dM.data ++ ',' :: '\n' :: ' ' :: ' ' :: ('"' :: ("altitude_m".data ++ '"' :: ':' :: ' ' :: (aM.data ++ ',' :: '\n' :: ' ' :: ' ' :: ('"' :: ("ground_truth_m".data ++ '"' :: ':' :: ' ' :: (gM.data ++ ',' :: '\n' :: ' ' :: ' ' :: ('"' :: ("error_m".data ++ '"' :: ':' :: ' ' :: (eM.data ++ ',' :: '\n' :: ' ' :: ' ' :: ('"' :: ("error_percent".data ++ '"' :: ':' :: ' ' :: (eP.data ++ '\n' :: '\x7d' :: ['\n'])))))))))))))))))))) := by
    rw [skipWs_cons_not (by decide)]
  have h1 : parseM (n + 8) ('"' :: ("success".data ++ '"' :: ':' :: ' ' :: (['t', 'r', 'u', 'e'] ++ ',' :: '\n' :: ' ' :: ' ' :: ('"' :: ("num_edges".data ++ '"' :: ':' :: ' ' :: (nE.data ++ ',' :: '\n' :: ' ' :: ' ' :: ('"' :: ("distance_m".data ++ '"' :: ':' :: ' ' :: (dM.data ++ ',' :: '\n' :: ' ' :: ' ' :: ('"' :: ("altitude_m".data ++ '"' :: ':' :: ' ' :: (aM.data ++ ',' :: '\n' :: ' ' :: ' ' :: ('"' :: ("ground_truth_m".data ++ '"' :: ':' :: ' ' :: (gM.data ++ ',' :: '\n' :: ' ' :: ' ' :: ('"' :: ("error_m".data ++ '"' :: ':' :: ' ' :: (eM.data ++ ',' :: '\n' :: ' ' :: ' ' :: ('"' :: ("error_percent".data ++ '"' :: ':' :: ' ' :: (eP.data ++ '\n' :: '\x7d' :: ['\n']))))))))))))))))))))) = some ([("success", Json.bool true), ("num_edges", Json.num nE), ("distance_m", Json.num dM), ("altitude_m", Json.num aM), ("ground_truth_m", Json.num gM), ("error_m", Json.num eM), ("error_percent", Json.num eP)], ['\n']) := by
    have hm := parseM_member_bool (n + 6) ("success".data) (by decide) true
      ('\n' :: ' ' :: ' ' :: ('"' :: ("num_edges".data ++ '"' :: ':' :: ' ' :: (nE.data ++ ',' :: '\n' :: ' ' :: ' ' :: ('"' :: ("distance_m".data ++ '"' :: ':' :: ' ' :: (dM.data ++ ',' :: '\n' :: ' ' :: ' ' :: ('"' :: ("altitude_m".data ++ '"' :: ':' :: ' ' :: (aM.data ++ ',' :: '\n' :: ' ' :: ' ' :: ('"' :: ("ground_truth_m".data ++ '"' :: ':' :: ' ' :: (gM.data ++ ',' :: '\n' :: ' ' :: ' ' :: ('"' :: ("error_m".data ++ '"' :: ':' :: ' ' :: (eM.data ++ ',' :: '\n' :: ' ' :: ' ' :: ('"' :: ("error_percent".data ++ '"' :: ':' :: ' ' :: (eP.data ++ '\n' :: '\x7d' :: ['\n']))))))))))))))))))) hc1
    rw [h2] at hm
    exact hm
  show parseV ((n + 8) + 1) (docOk nE dM aM gM eM eP) = _
  conv_lhs => unfold parseV
  simp +decide only [docOk, skipWs_cons_not, skipWs_cons_ws, h1, if_true,
    if_false]



/-! ### C1: the JSON writer's output -/

/-! Character-list forms of the string literals in `json_text`, `docFail`
and `docOk`. -/

theorem litData0 : ("\x7b\n  \"success\": " : String).data = ['\x7b', '\n', ' ', ' ', '\"', 's', 'u', 'c', 'c', 'e', 's', 's', '\"', ':', ' '] := rfl

theorem litData1 : ("true" : String).data = ['t', 'r', 'u', 'e'] := rfl

theorem litData2 : ("false" : String).data = ['f', 'a', 'l', 's', 'e'] := rfl

theorem litData3 : (",\n" : String).data = [',', '\n'] := rfl

theorem litData4 : ("  \"error\": \"" : String).data = [' ', ' ', '\"', 'e', 'r', 'r', 'o', 'r', '\"', ':', ' ', '\"'] := rfl

theorem litData5 : ("\"\n\x7d\n" : String).data = ['\"', '\n', '\x7d', '\n'] := rfl

theorem litData6 : ("  \"num_edges\": " : String).data = [' ', ' ', '\"', 'n', 'u', 'm', '_', 'e', 'd', 'g', 'e', 's', '\"', ':', ' '] := rfl

theorem litData7 : ("  \"distance_m\": " : String).data = [' ', ' ', '\"', 'd', 'i', 's', 't', 'a', 'n', 'c', 'e', '_', 'm', '\"', ':', ' '] := rfl

theorem litData8 : ("  \"altitude_m\": " : String).data = [' ', ' ', '\"', 'a', 'l', 't', 'i', 't', 'u', 'd', 'e', '_', 'm', '\"', ':', ' '] := rfl

theorem litData9 : ("  \"ground_truth_m\": " : String).data = [' ', ' ', '\"', 'g', 'r', 'o', 'u', 'n', 'd', '_', 't', 'r', 'u', 't', 'h', '_', 'm', '\"', ':', ' '] := rfl

theorem litData10 : ("  \"error_m\": " : String).data = [' ', ' ', '\"', 'e', 'r', 'r', 'o', 'r', '_', 'm', '\"', ':', ' '] := rfl

theorem litData11 : ("  \"error_percent\": " : String).data = [' ', ' ', '\"', 'e', 'r', 'r', 'o', 'r', '_', 'p', 'e', 'r', 'c', 'e', 'n', 't', '\"', ':', ' '] := rfl

theorem litData12 : ("\n\x7d\n" : String).data = ['\n', '\x7d', '\n'] := rfl

theorem litData13 : ("success" : String).data = ['s', 'u', 'c', 'c', 'e', 's', 's'] := rfl

theorem litData14 : ("error" : String).data = ['e', 'r', 'r', 'o', 'r'] := rfl

theorem litData15 : ("num_edges" : String).data = ['n', 'u', 'm', '_', 'e', 'd', 'g', 'e', 's'] := rfl

theorem litData16 : ("distance_m" : String).data = ['d', 'i', 's', 't', 'a', 'n', 'c', 'e', '_', 'm'] := rfl

theorem litData17 : ("altitude_m" : String).data = ['a', 'l', 't', 'i', 't', 'u', 'd', 'e', '_', 'm'] := rfl

theorem litData18 : ("ground_truth_m" : String).data = ['g', 'r', 'o', 'u', 'n', 'd', '_', 't', 'r', 'u', 't', 'h', '_', 'm'] := rfl

theorem litData19 : ("error_m" : String).data = ['e', 'r', 'r', 'o', 'r', '_', 'm'] := rfl

theorem litData20 : ("error_percent" : String).data = ['e', 'r', 'r', 'o', 'r', '_', 'p', 'e', 'r', 'c', 'e', 'n', 't'] := rfl

theorem json_text_fail_data (fmtD : ℚ → String) (fmtI : Int → String)
    (r : RunResult) (hs : r.success = false) :
    (json_text fmtD fmtI r).data = docFail r.error_message := by
  obtain ⟨sc, msg, nE, dM, aM, gM, eM, eP⟩ := r
  replace hs : sc = false := hs
  subst hs
  simp +decide only [json_text, docFail, if_true, if_false, String.data_append,
    litData0, litData2, litData3, litData4, litData5, litData13, litData14,
    List.cons_append, List.nil_append, List.append_assoc]

theorem json_text_ok_data (fmtD : ℚ → String) (fmtI : Int → String)
    (r : RunResult) (hs : r.success = true) :
    (json_text fmtD fmtI r).data =
      docOk (fmtI r.num_edges) (fmtD r.distance_m) (fmtD r.altitude_m)
        (fmtD r.ground_truth_m) (fmtD r.error_m) (fmtD r.error_percent) := by
  obtain ⟨sc, msg, nE, dM, aM, gM, eM, eP⟩ := r
  replace hs : sc = true := hs
  subst hs
  simp +decide only [json_text, docOk, if_true, if_false, String.data_append,
    litData0, litData1, litData3, litData6, litData7, litData8, litData9,
    litData10, litData11, litData12, litData13, litData15, litData16,
    litData17, litData18, litData19, litData20,
    List.cons_append, List.nil_append, List.append_assoc]

/-- C1 (amended): for every record whose `error_message` contains no double
quote, backslash or control character, and number formatters that emit
valid JSON number tokens, the text that `write_result_json` writes to a
writable path is parseable JSON; on success it is an object with exactly
the keys `success`, `num_edges`, `distance_m`, `altitude_m`,
`ground_truth_m`, `error_m`, `error_percent`, and on failure an object with
exactly `success` (false) and the `error` string. -/
theorem write_result_json_parseable (env : Env) (fmtD : ℚ → String)
    (fmtI : Int → String) (r : RunResult) (path : String)
    (hw : env.ofstream_ok path = true)
    (hD : ∀ q : ℚ, numToken (fmtD q) = true)
    (hI : ∀ m : Int, numToken (fmtI m) = true)
    (hmsg : ∀ c ∈ r.error_message.data, cleanChar c = true) :
    (write_result_json env fmtD fmtI r path).1 =
        Except.ok (json_text fmtD fmtI r) ∧
      parseJson (json_text fmtD fmtI r) =
        some (Json.obj (if r.success then
          [("success", Json.bool true),
           ("num_edges", Json.num (fmtI r.num_edges)),
           ("distance_m", Json.num (fmtD r.distance_m)),
           ("altitude_m", Json.num (fmtD r.altitude_m)),
           ("ground_truth_m", Json.num (fmtD r.ground_truth_m)),
           ("error_m", Json.num (fmtD r.error_m)),
           ("error_percent", Json.num (fmtD r.error_percent))]
        else
          [("success", Json.bool false),
           ("error", Json.str r.error_message)])) := by
  constructor
  · unfold write_result_json
    rw [hw]
    rfl
  · cases hs : r.success
    · unfold parseJson
      rw [json_text_fail_data fmtD fmtI r hs]
      have hlen : (docFail r.error_message).length + 1 =
          (r.error_message.data.length + 35) + 4 := by
        simp [docFail, show ("success".data).length = 7 from rfl,
          show ("error".data).length = 5 from rfl]
      rw [hlen, parse_fail_doc (r.error_message.data.length + 35) hmsg]
      rfl
    · unfold parseJson
      rw [json_text_ok_data fmtD fmtI r hs]
      have hlen : (docOk (fmtI r.num_edges) (fmtD r.distance_m)
            (fmtD r.altitude_m) (fmtD r.ground_truth_m) (fmtD r.error_m)
            (fmtD r.error_percent)).length + 1 =
          (((fmtI r.num_edges).data.length + (fmtD r.distance_m).data.length +
            (fmtD r.altitude_m).data.length +
            (fmtD r.ground_truth_m).data.length +
            (fmtD r.error_m).data.length +
            (fmtD r.error_percent).data.length) + 125) + 9 := by
        simp [docOk, show ("success".data).length = 7 from rfl,
          show ("num_edges".data).length = 9 from rfl,
          show ("distance_m".data).length = 10 from rfl,
          show ("altitude_m".data).length = 10 from rfl,
          show ("ground_truth_m".data).length = 14 from rfl,
          show ("error_m".data).length = 7 from rfl,
          show ("error_percent".data).length = 13 from rfl] <;> omega
      rw [hlen, parse_ok_doc (((fmtI r.num_edges).data.length +
          (fmtD r.distance_m).data.length + (fmtD r.altitude_m).data.length +
          (fmtD r.ground_truth_m).data.length + (fmtD r.error_m).data.length +
          (fmtD r.error_percent).data.length) + 125)
        (hI r.num_edges) (hD r.distance_m) (hD r.altitude_m)
        (hD r.ground_truth_m) (hD r.error_m) (hD r.error_percent)]
      rfl

/-- Witness for the amended C1: a default (failed) record, a constant
numeric formatter, and a writable path. -/
theorem write_result_json_parseable_witness :
    (write_result_json envOk (fun _ => "0") (fun _ => "0")
        ({ } : RunResult) "x.json").1 =
        Except.ok (json_text (fun _ => "0") (fun _ => "0") ({ } : RunResult)) ∧
      parseJson (json_text (fun _ => "0") (fun _ => "0") ({ } : RunResult)) =
        some (Json.obj (if ({ } : RunResult).success then
          [("success", Json.bool true), ("num_edges", Json.num "0"),
           ("distance_m", Json.num "0"), ("altitude_m", Json.num "0"),
           ("ground_truth_m", Json.num "0"), ("error_m", Json.num "0"),
           ("error_percent", Json.num "0")]
        else
          [("success", Json.bool false),
           ("error", Json.str ({ } : RunResult).error_message)])) :=
  write_result_json_parseable envOk (fun _ => "0") (fun _ => "0")
    ({ } : RunResult) "x.json" rfl
    (fun _ => (by decide : numToken "0" = true))
    (fun _ => (by decide : numToken "0" = true)) (by decide)

/-- C1 counterexample: a record whose `error_message` contains a double
quote.  `write_result_json` interpolates it into the JSON string literal
without escaping, and the resulting text is not parseable JSON. -/
theorem write_result_json_quote_unparseable :
    (write_result_json envOk (fun _ => "0") (fun _ => "0")
        { success := false, error_message := "a\"b" } "x.json").1 =
        Except.ok (json_text (fun _ => "0") (fun _ => "0")
          { success := false, error_message := "a\"b" }) ∧
      parseJson (json_text (fun _ => "0") (fun _ => "0")
        { success := false, error_message := "a\"b" }) = none :=
  ⟨rfl, rfl⟩

end Integration
